import Mathlib

/-!
Shallow embedding of the MT5 HTTP bridge (src/main.py) and verification of
its specification claims.

The MetaTrader5 terminal is an external collaborator; it is modelled as a
record `World` of oracle functions, one per native call the bridge makes
(symbol_info, symbol_info_tick, order_send, positions_get, ...), together
with the module-level state of the bridge (`MT5_AVAILABLE`, `LAST_ACC`).
Prices and volumes are exact numerals (`Int`): the bridge performs no
arithmetic on them, it only copies them between records, so the numeric
carrier is irrelevant to the properties proved here.

Python `None` becomes `Option.none`.  An unguarded attribute access on a
value that is `None` (which in Python raises `AttributeError` through to
the HTTP layer) is modelled as `Except.error`; every structured JSON
response the handlers build is an `Except.ok` of a response datatype whose
constructors mirror the exact dict shapes of the source.
-/

/-- MetaTrader5 module constants used by src/main.py (values of the real
library; `filling_fok`/`filling_ioc` are the `getattr` defaults the code
itself supplies at lines 153-154, which coincide with the library values). -/
def ORDER_TYPE_BUY : Nat := 0

def ORDER_TYPE_SELL : Nat := 1

def TRADE_ACTION_DEAL : Nat := 1

def ORDER_TIME_GTC : Nat := 0

def ORDER_FILLING_FOK : Nat := 0

def ORDER_FILLING_IOC : Nat := 1

def ORDER_FILLING_RETURN : Nat := 2

def TRADE_RETCODE_DONE : Nat := 10009

/-- `filling_fok = getattr(mt5, "SYMBOL_FILLING_FOK", 1)` (line 153). -/
def filling_fok : Nat := 1

/-- `filling_ioc = getattr(mt5, "SYMBOL_FILLING_IOC", 2)` (line 154). -/
def filling_ioc : Nat := 2

/-- The credential triple of `ConnectRequest` / `LAST_ACC`. -/
structure Creds where
  login : Int
  password : String
  server : String
deriving DecidableEq, Repr

/-- Projection of `mt5.symbol_info(...)`: the two fields the bridge reads. -/
structure SymbolInfo where
  visible : Bool
  filling_mode : Nat
deriving DecidableEq, Repr

/-- Projection of `mt5.symbol_info_tick(...)`: the two fields the bridge reads. -/
structure Tick where
  bid : Int
  ask : Int
deriving DecidableEq, Repr

/-- Projection of an `mt5.order_send` result object.  `comment` is an
`Option` because line 187 of the source guards it with `hasattr`. -/
structure OrderResult where
  retcode : Nat
  comment : Option String
  order : Nat
deriving DecidableEq, Repr

/-- Projection of an open-position record (`mt5.positions_get`). -/
structure Position where
  ticket : Nat
  symbol : String
  volume : Int
  type : Nat
  profit : Int
  price_open : Int
deriving DecidableEq, Repr

/-- Projection of a historical-deal record (`mt5.history_deals_get`). -/
structure Deal where
  ticket : Nat
  symbol : String
  volume : Int
  type : Nat
  profit : Int
  price : Int
  time : Nat
deriving DecidableEq, Repr

/-- The `request` dict passed to `mt5.order_send`.  `sl`, `tp` and
`position` are `Option` because the order path (lines 165-177) and the
close path (lines 210-221) build dicts with different key sets: `none`
models an absent key. -/
structure TradeRequest where
  action : Nat
  symbol : String
  volume : Int
  type : Nat
  price : Int
  sl : Option Int
  tp : Option Int
  magic : Nat
  comment : String
  type_time : Nat
  type_filling : Nat
  position : Option Nat
deriving DecidableEq, Repr

/-- The `OrderRequest` pydantic model (lines 50-56). -/
structure OrderRequest where
  symbol : String
  type : String
  volume : Int
  sl : Option Int
  tp : Option Int
  comment : Option String
deriving DecidableEq, Repr

/-- The terminal collaborator together with the bridge's module state:
`mt5_available` is `MT5_AVAILABLE`, `last_acc` is `LAST_ACC`, and every
other field is one native call of the MetaTrader5 API, returning exactly
what the terminal would. -/
structure World where
  mt5_available : Bool
  terminal_info : Option Unit
  last_acc : Option Creds
  init_creds : Creds → Bool
  init_default : Bool
  symbol_info : String → Option SymbolInfo
  symbol_select : String → Bool
  symbol_info_tick : String → Option Tick
  order_send : TradeRequest → Option OrderResult
  positions_get_ticket : Nat → Option (List Position)
  positions_get_all : Option (List Position)
  history_deals_get : Option (List Deal)
  last_error : String

/-- Responses of `POST /order`: the three dict shapes built at lines 118,
138, 143, 147, 182 (`fail`), 184-189 (`failRet`), 191 (`okTicket`). -/
inductive OrderResponse where
  | fail (error : String)
  | failRet (error : String) (retcode : Nat)
  | okTicket (ticket : Nat)
deriving DecidableEq, Repr

/-- Responses of `POST /close` (lines 199, 203, 225, 226). -/
inductive CloseResponse where
  | fail (error : String)
  | ok
deriving DecidableEq, Repr

/-- Responses of `POST /connect` (lines 85, 95, 97). -/
inductive ConnectResponse where
  | fail (error : String)
  | ok
deriving DecidableEq, Repr

/-- `ensure_mt5()` (lines 29-47): true immediately when `terminal_info()`
is not None; otherwise reconnect with the stored credentials when `LAST_ACC`
is set, else a default `initialize()`. -/
def ensure_mt5 (w : World) : Bool :=
  if !w.mt5_available then false
  else if w.terminal_info.isSome then true
  else match w.last_acc with
    | some acc => w.init_creds acc
    | none => w.init_default

/-- Python `float(x) if x else 0.0` (lines 171-172): `None` and `0.0` are
falsy, any other number passes through. -/
def floatOrZero : Option Int → Int
  | some v => if v = 0 then 0 else v
  | none => 0

/-- Python `x or default` on a string (line 174): `None` and the empty
string are falsy. -/
def strOr (c : Option String) (d : String) : String :=
  match c with
  | some s => if s = "" then d else s
  | none => d

/-- The broker-suffix variants tried at line 129, in source order. -/
def suffix_list : List String := ["m", ".pro", ".m", ".x"]

/-- The suffix loop of lines 129-135: first metadata hit wins. -/
def try_suffixes (info : String → Option SymbolInfo) (base : String) :
    List String → Option (String × SymbolInfo)
  | [] => none
  | s :: rest =>
    match info (base ++ s) with
    | some si => some (base ++ s, si)
    | none => try_suffixes info base rest

/-- Symbol resolution of lines 124-135: exact identifier first, then the
fixed suffix list. -/
def resolve_symbol (info : String → Option SymbolInfo) (sym : String) :
    Option (String × SymbolInfo) :=
  match info sym with
  | some si => some (sym, si)
  | none => try_suffixes info sym suffix_list

/-- Fill-mode negotiation of lines 153-163: FOK bit wins, then IOC bit,
else the RETURN fallback. -/
def negotiate_filling (filling_mode : Nat) : Nat :=
  if filling_mode &&& filling_fok ≠ 0 then ORDER_FILLING_FOK
  else if filling_mode &&& filling_ioc ≠ 0 then ORDER_FILLING_IOC
  else ORDER_FILLING_RETURN

/-- Lines 117-177 of `place_order`: everything before `mt5.order_send`.
`Sum.inl` is an early structured failure (no submission is attempted);
`Sum.inr` is the fully assembled trade request about to be submitted. -/
def build_order (w : World) (order : OrderRequest) :
    Sum OrderResponse TradeRequest :=
  if !ensure_mt5 w then
    Sum.inl (.fail "Bridge not initialized and no credentials available.")
  else
    let order_type := if order.type = "BUY" then ORDER_TYPE_BUY else ORDER_TYPE_SELL
    match resolve_symbol w.symbol_info order.symbol with
    | none =>
      Sum.inl (.fail ("Symbol " ++ order.symbol ++ " (or variants) not found in MT5"))
    | some (actual_symbol, si) =>
      if !si.visible && !w.symbol_select actual_symbol then
        Sum.inl (.fail ("Failed to select symbol " ++ actual_symbol))
      else
        match w.symbol_info_tick actual_symbol with
        | none => Sum.inl (.fail ("Could not get tick for " ++ actual_symbol))
        | some tick =>
          let price := if order.type = "BUY" then tick.ask else tick.bid
          let filling_type := negotiate_filling si.filling_mode
          Sum.inr
            { action := TRADE_ACTION_DEAL
              symbol := actual_symbol
              volume := order.volume
              type := order_type
              price := price
              sl := some (floatOrZero order.sl)
              tp := some (floatOrZero order.tp)
              magic := 123456
              comment := strOr order.comment "GainZAlgo Signal"
              type_time := ORDER_TIME_GTC
              type_filling := filling_type
              position := none }

/-- Lines 179-191 of `place_order`: classification of the `order_send`
result into the three response shapes. -/
def classify_order_result (result : Option OrderResult) (le : String) :
    OrderResponse :=
  match result with
  | none => .fail ("Internal MT5 Error: order_send returned None. Error: " ++ le)
  | some r =>
    if r.retcode ≠ TRADE_RETCODE_DONE then
      .failRet
        ("Trade failed (Code " ++ toString r.retcode ++ "): " ++
          (match r.comment with | some c => c | none => "Unknown error"))
        r.retcode
    else .okTicket r.order

/-- `POST /order` handler (lines 115-191). -/
def place_order (w : World) (order : OrderRequest) :
    Except String OrderResponse :=
  match build_order w order with
  | Sum.inl resp => Except.ok resp
  | Sum.inr req => Except.ok (classify_order_result (w.order_send req) w.last_error)

/-- Lines 197-221 of `close_position`: everything before `mt5.order_send`.
Line 208 reads `tick.bid` / `tick.ask` with no None-guard, so a null quote
is an `Except.error` (AttributeError), not a structured response. -/
def close_position_request (w : World) (ticket : Nat) :
    Except String (Sum CloseResponse TradeRequest) :=
  if !ensure_mt5 w then Except.ok (Sum.inl (.fail "Bridge not initialized"))
  else
    match w.positions_get_ticket ticket with
    | none => Except.ok (Sum.inl (.fail "Position not found"))
    | some [] => Except.ok (Sum.inl (.fail "Position not found"))
    | some (p :: _) =>
      let order_type := if p.type = ORDER_TYPE_BUY then ORDER_TYPE_SELL else ORDER_TYPE_BUY
      match w.symbol_info_tick p.symbol with
      | none => Except.error "AttributeError: NoneType object has no attribute bid"
      | some tick =>
        let price := if order_type = ORDER_TYPE_SELL then tick.bid else tick.ask
        Except.ok (Sum.inr
          { action := TRADE_ACTION_DEAL
            symbol := p.symbol
            volume := p.volume
            type := order_type
            price := price
            sl := none
            tp := none
            magic := 123456
            comment := "Close Position"
            type_time := ORDER_TIME_GTC
            type_filling := ORDER_FILLING_IOC
            position := some p.ticket })

/-- Lines 223-226 of `close_position`: `result.retcode` and
`result.comment` are read with no None-guard, so a null submission result
(and a result object lacking `comment`) is an `Except.error`. -/
def classify_close_result (result : Option OrderResult) :
    Except String CloseResponse :=
  match result with
  | none => Except.error "AttributeError: NoneType object has no attribute retcode"
  | some r =>
    if r.retcode ≠ TRADE_RETCODE_DONE then
      match r.comment with
      | none => Except.error "AttributeError: result object has no attribute comment"
      | some c => Except.ok (.fail ("Close failed: " ++ c))
    else Except.ok .ok

/-- `POST /close` handler (lines 196-226). -/
def close_position (w : World) (ticket : Nat) : Except String CloseResponse :=
  match close_position_request w ticket with
  | Except.error e => Except.error e
  | Except.ok (Sum.inl resp) => Except.ok resp
  | Except.ok (Sum.inr req) => classify_close_result (w.order_send req)

/-- `POST /connect` handler (lines 81-97): persists the credentials into
`LAST_ACC` before attempting the connection; returns the updated world and
the response. -/
def connect (w : World) (req : Creds) : World × ConnectResponse :=
  if !w.mt5_available then (w, .fail "MT5 Library not available")
  else
    let w1 := { w with last_acc := some req }
    if w1.init_creds req then (w1, .ok)
    else (w1, .fail ("Failed to connect to " ++ req.server ++ ": " ++ w1.last_error))

/-- One row of the `GET /positions` response (lines 237-246). -/
structure PositionOut where
  ticket : Nat
  symbol : String
  volume : Int
  type : String
  profit : Int
  price_open : Int
deriving DecidableEq, Repr

/-- `GET /positions` handler (lines 228-246). -/
def get_positions (w : World) : List PositionOut :=
  if !ensure_mt5 w then []
  else match w.positions_get_all with
  | none => []
  | some ps => ps.map fun p =>
      { ticket := p.ticket
        symbol := p.symbol
        volume := p.volume
        type := if p.type = 0 then "BUY" else "SELL"
        profit := p.profit
        price_open := p.price_open }

/-- One row of the `GET /history` response (lines 257-267). -/
structure DealOut where
  ticket : Nat
  symbol : String
  volume : Int
  type : String
  profit : Int
  openPrice : Int
  closeTime : Nat
deriving DecidableEq, Repr

/-- `GET /history` handler (lines 248-267). -/
def get_history (w : World) : List DealOut :=
  if !ensure_mt5 w then []
  else match w.history_deals_get with
  | none => []
  | some ds => ds.map fun d =>
      { ticket := d.ticket
        symbol := d.symbol
        volume := d.volume
        type := if d.type = 0 then "BUY" else "SELL"
        profit := d.profit
        openPrice := d.price
        closeTime := d.time * 1000 }

/-! ### Concrete worlds used by witnesses and counterexamples -/

/-- A connected terminal that knows the symbol "EURUSD" (exact match),
holds one open position with ticket 7, and answers every call. -/
def wDemo : World :=
  { mt5_available := true
    terminal_info := some ()
    last_acc := none
    init_creds := fun _ => false
    init_default := false
    symbol_info := fun s =>
      if s = "EURUSD" then some { visible := true, filling_mode := 1 } else none
    symbol_select := fun _ => true
    symbol_info_tick := fun s =>
      if s = "EURUSD" then some { bid := 100, ask := 101 } else none
    order_send := fun _ => some { retcode := 10009, comment := some "done", order := 42 }
    positions_get_ticket := fun t =>
      if t = 7 then
        some [{ ticket := 7, symbol := "EURUSD", volume := 1, type := 0,
                profit := 5, price_open := 99 }]
      else none
    positions_get_all := some []
    history_deals_get := none
    last_error := "(1, Success)" }

/-- A connected terminal whose metadata knows no symbol at all. -/
def wEmptyMeta : World :=
  { wDemo with symbol_info := fun _ => none }

/-- A connected terminal that knows position 7 but returns a null quote
for every symbol. -/
def wNullTick : World :=
  { wDemo with symbol_info_tick := fun _ => none }

/-! ### Claims -/

/-- Claim C3: fill-mode negotiation is a deterministic pure function of
the supported-fill-mode bitset: FOK bit set gives FOK (even when the IOC
bit is also set), else IOC bit set gives IOC, else the RETURN fallback;
equal bitsets give equal modes. -/
theorem C3_fill_mode_negotiation :
    (∀ m : Nat, m &&& filling_fok ≠ 0 → negotiate_filling m = ORDER_FILLING_FOK) ∧
    (∀ m : Nat, m &&& filling_fok = 0 → m &&& filling_ioc ≠ 0 →
      negotiate_filling m = ORDER_FILLING_IOC) ∧
    (∀ m : Nat, m &&& filling_fok = 0 → m &&& filling_ioc = 0 →
      negotiate_filling m = ORDER_FILLING_RETURN) ∧
    (∀ m m' : Nat, m = m' → negotiate_filling m = negotiate_filling m') := by
  refine ⟨fun m h => ?_, fun m h1 h2 => ?_, fun m h1 h2 => ?_, fun m m' h => by rw [h]⟩
  · simp [negotiate_filling, h]
  · simp [negotiate_filling, h1, h2]
  · simp [negotiate_filling, h1, h2]

/-- Claim C3 witness: the bitset 3 has both the FOK bit and the IOC bit
set, and negotiation chooses FOK. -/
theorem C3_fill_mode_negotiation_witness :
    negotiate_filling 3 = ORDER_FILLING_FOK :=
  C3_fill_mode_negotiation.1 3 (by decide)

/-- Claim C7: when the library is present, the connectivity check returns
true immediately when the terminal reports a live state (and the answer
does not depend on either reconnection routine); otherwise it returns the
terminal's signal for a connection with exactly the stored credentials
when a triple is saved, and for the default no-credential connection when
none is. -/
theorem C7_ensure_mt5_behavior :
    ∀ w : World, w.mt5_available = true →
      ((w.terminal_info.isSome = true →
          ensure_mt5 w = true ∧
          ∀ (f : Creds → Bool) (d : Bool),
            ensure_mt5 { w with init_creds := f, init_default := d } = true) ∧
       (w.terminal_info = none → ∀ c : Creds, w.last_acc = some c →
          ensure_mt5 w = w.init_creds c) ∧
       (w.terminal_info = none → w.last_acc = none →
          ensure_mt5 w = w.init_default)) := by
  intro w hav
  refine ⟨fun hti => ⟨?_, fun f d => ?_⟩, fun hti c hacc => ?_, fun hti hacc => ?_⟩
  · simp [ensure_mt5, hav, hti]
  · simp [ensure_mt5, hav, hti]
  · simp [ensure_mt5, hav, hti, hacc]
  · simp [ensure_mt5, hav, hti, hacc]

/-- Claim C7 witness: on a concrete world with a live terminal the check
returns true, and swapping in reconnection routines that always fail does
not change the answer. -/
theorem C7_ensure_mt5_behavior_witness :
    ensure_mt5 wDemo = true ∧
    ∀ (f : Creds → Bool) (d : Bool),
      ensure_mt5 { wDemo with init_creds := f, init_default := d } = true :=
  (C7_ensure_mt5_behavior wDemo rfl).1 rfl

/-- Claim C8: the explicit connect operation stores the supplied
credential triple (overwriting any prior value) whether or not the
connection attempt succeeds — in particular after a failed attempt the new
credentials are still stored — and on failure it reports the terminal's
diagnostic text. -/
theorem C8_connect_persists_credentials :
    ∀ (w : World) (req : Creds), w.mt5_available = true →
      ((connect w req).1.last_acc = some req ∧
       (w.init_creds req = false →
          (connect w req).2 =
            ConnectResponse.fail
              ("Failed to connect to " ++ req.server ++ ": " ++ w.last_error)) ∧
       (w.init_creds req = true → (connect w req).2 = ConnectResponse.ok)) := by
  intro w req hav
  refine ⟨?_, fun hfail => ?_, fun hok => ?_⟩
  · cases hc : w.init_creds req <;> simp [connect, hav, hc]
  · simp [connect, hav, hfail]
  · simp [connect, hav, hok]

/-- Claim C8 witness: on a concrete world whose terminal rejects every
credentialed connection, connect still stores the triple and reports the
diagnostic text. -/
theorem C8_connect_persists_credentials_witness :
    (connect wDemo { login := 1, password := "pw", server := "Srv" }).1.last_acc =
      some { login := 1, password := "pw", server := "Srv" } ∧
    (connect wDemo { login := 1, password := "pw", server := "Srv" }).2 =
      ConnectResponse.fail ("Failed to connect to " ++ "Srv" ++ ": " ++ wDemo.last_error) :=
  ⟨(C8_connect_persists_credentials wDemo { login := 1, password := "pw", server := "Srv" } rfl).1,
   (C8_connect_persists_credentials wDemo { login := 1, password := "pw", server := "Srv" } rfl).2.1 rfl⟩

/-- Claim C9: the positions and history readers always return a sequence:
when connectivity cannot be ensured, or when the terminal returns null or
zero records, the result is the empty sequence. -/
theorem C9_readers_return_empty :
    ∀ w : World,
      (ensure_mt5 w = false → get_positions w = [] ∧ get_history w = []) ∧
      (w.positions_get_all = none → get_positions w = []) ∧
      (w.positions_get_all = some [] → get_positions w = []) ∧
      (w.history_deals_get = none → get_history w = []) ∧
      (w.history_deals_get = some [] → get_history w = []) := by
  intro w
  refine ⟨fun hens => ⟨?_, ?_⟩, fun h => ?_, fun h => ?_, fun h => ?_, fun h => ?_⟩
  · simp [get_positions, hens]
  · simp [get_history, hens]
  · cases hens : ensure_mt5 w <;> simp [get_positions, hens, h]
  · cases hens : ensure_mt5 w <;> simp [get_positions, hens, h]
  · cases hens : ensure_mt5 w <;> simp [get_history, hens, h]
  · cases hens : ensure_mt5 w <;> simp [get_history, hens, h]

/-- Claim C9 witness: on a concrete connected world with zero open
positions and a null history result, both readers return the empty
sequence. -/
theorem C9_readers_return_empty_witness :
    get_positions wDemo = [] ∧ get_history wDemo = [] :=
  ⟨(C9_readers_return_empty wDemo).2.2.1 rfl,
   (C9_readers_return_empty wDemo).2.2.2.1 rfl⟩

/-- The concrete BUY order request used by witnesses. -/
def oDemoBuy : OrderRequest :=
  { symbol := "EURUSD", type := "BUY", volume := 1, sl := none, tp := none, comment := none }

/-- The trade request `build_order` assembles for `oDemoBuy` on `wDemo`. -/
def reqDemoBuy : TradeRequest :=
  { action := 1, symbol := "EURUSD", volume := 1, type := 0, price := 101
    sl := some 0, tp := some 0, magic := 123456, comment := "GainZAlgo Signal"
    type_time := 0, type_filling := 0, position := none }

/-- The trade request the close path assembles for ticket 7 on `wDemo`. -/
def reqDemoClose : TradeRequest :=
  { action := 1, symbol := "EURUSD", volume := 1, type := 1, price := 100
    sl := none, tp := none, magic := 123456, comment := "Close Position"
    type_time := 0, type_filling := 1, position := some 7 }

/-- Claim C1: the execution price sent to the terminal is the quote's ask
for side BUY and bid for side SELL, on both the order-placement path and
the close path; the close path trades the inverse of the recorded side, so
a long position (type BUY) closes at bid and a short at ask. -/
theorem C1_execution_price :
    (∀ (w : World) (o : OrderRequest) (req : TradeRequest),
       build_order w o = Sum.inr req →
       ∃ t : Tick, w.symbol_info_tick req.symbol = some t ∧
         (o.type = "BUY" → req.price = t.ask) ∧
         (o.type = "SELL" → req.price = t.bid)) ∧
    (∀ (w : World) (tk : Nat) (req : TradeRequest),
       close_position_request w tk = Except.ok (Sum.inr req) →
       ∃ (p : Position) (rest : List Position) (t : Tick),
         w.positions_get_ticket tk = some (p :: rest) ∧
         w.symbol_info_tick p.symbol = some t ∧
         (p.type = ORDER_TYPE_BUY → req.type = ORDER_TYPE_SELL ∧ req.price = t.bid) ∧
         (p.type ≠ ORDER_TYPE_BUY → req.type = ORDER_TYPE_BUY ∧ req.price = t.ask)) := by
  constructor
  · intro w o req h
    cases hens : ensure_mt5 w
    · simp [build_order, hens] at h
    · cases hres : resolve_symbol w.symbol_info o.symbol with
      | none => simp [build_order, hens, hres] at h
      | some pair =>
        obtain ⟨a, si⟩ := pair
        by_cases hvis : (!si.visible && !w.symbol_select a) = true
        · simp [build_order, hens, hres, hvis] at h
        · cases htick : w.symbol_info_tick a with
          | none => simp [build_order, hens, hres, hvis, htick] at h
          | some t =>
            simp only [build_order, hens, hres, hvis, htick, Bool.not_true,
              Bool.false_eq_true, if_false, if_true] at h
            injection h with h
            subst h
            refine ⟨t, htick, fun hb => ?_, fun hs => ?_⟩
            · simp [hb]
            · rw [hs]; simp
  · intro w tk req h
    cases hens : ensure_mt5 w
    · simp [close_position_request, hens] at h
    · cases hpos : w.positions_get_ticket tk with
      | none => simp [close_position_request, hens, hpos] at h
      | some l =>
        cases l with
        | nil => simp [close_position_request, hens, hpos] at h
        | cons p rest =>
          cases htick : w.symbol_info_tick p.symbol with
          | none => simp [close_position_request, hens, hpos, htick] at h
          | some t =>
            by_cases hb : p.type = ORDER_TYPE_BUY
            · simp only [close_position_request, hens, hpos, htick, hb,
                Bool.not_true, eq_self_iff_true, if_true, if_false] at h
              injection h with h
              injection h with h
              subst h
              exact ⟨p, rest, t, rfl, htick, fun _ => ⟨rfl, rfl⟩,
                fun hnot => absurd hb hnot⟩
            · simp only [close_position_request, hens, hpos, htick,
                Bool.not_true] at h
              rw [if_neg hb] at h
              rw [if_neg (show ¬(ORDER_TYPE_BUY = ORDER_TYPE_SELL) by decide)] at h
              injection h with h
              injection h with h
              subst h
              exact ⟨p, rest, t, rfl, htick, fun hbuy => absurd hbuy hb,
                fun _ => ⟨rfl, rfl⟩⟩

/-- Claim C1 witness: on `wDemo`, a BUY order for "EURUSD" is priced at
the ask, and closing the long position with ticket 7 is priced at the bid. -/
theorem C1_execution_price_witness :
    (∃ t : Tick, wDemo.symbol_info_tick reqDemoBuy.symbol = some t ∧
       (oDemoBuy.type = "BUY" → reqDemoBuy.price = t.ask) ∧
       (oDemoBuy.type = "SELL" → reqDemoBuy.price = t.bid)) ∧
    (∃ (p : Position) (rest : List Position) (t : Tick),
       wDemo.positions_get_ticket 7 = some (p :: rest) ∧
       wDemo.symbol_info_tick p.symbol = some t ∧
       (p.type = ORDER_TYPE_BUY → reqDemoClose.type = ORDER_TYPE_SELL ∧
          reqDemoClose.price = t.bid) ∧
       (p.type ≠ ORDER_TYPE_BUY → reqDemoClose.type = ORDER_TYPE_BUY ∧
          reqDemoClose.price = t.ask)) :=
  ⟨C1_execution_price.1 wDemo oDemoBuy reqDemoBuy (by rfl),
   C1_execution_price.2 wDemo 7 reqDemoClose (by rfl)⟩

/-- Claim C2: symbol resolution queries metadata for the exact identifier
first; if absent it tries the suffixes "m", ".pro", ".m", ".x" in exactly
that order, stopping at the first match; if no variant matches, the order
request fails with an error naming the requested identifier and no
submission is attempted (the path never reaches `order_send`). -/
theorem C2_symbol_resolution :
    (∀ (info : String → Option SymbolInfo) (sym : String) (si : SymbolInfo),
       info sym = some si → resolve_symbol info sym = some (sym, si)) ∧
    (∀ (info : String → Option SymbolInfo) (sym : String) (si : SymbolInfo),
       info sym = none → info (sym ++ "m") = some si →
       resolve_symbol info sym = some (sym ++ "m", si)) ∧
    (∀ (info : String → Option SymbolInfo) (sym : String) (si : SymbolInfo),
       info sym = none → info (sym ++ "m") = none → info (sym ++ ".pro") = some si →
       resolve_symbol info sym = some (sym ++ ".pro", si)) ∧
    (∀ (info : String → Option SymbolInfo) (sym : String) (si : SymbolInfo),
       info sym = none → info (sym ++ "m") = none → info (sym ++ ".pro") = none →
       info (sym ++ ".m") = some si →
       resolve_symbol info sym = some (sym ++ ".m", si)) ∧
    (∀ (info : String → Option SymbolInfo) (sym : String) (si : SymbolInfo),
       info sym = none → info (sym ++ "m") = none → info (sym ++ ".pro") = none →
       info (sym ++ ".m") = none → info (sym ++ ".x") = some si →
       resolve_symbol info sym = some (sym ++ ".x", si)) ∧
    (∀ (info : String → Option SymbolInfo) (sym : String),
       info sym = none → info (sym ++ "m") = none → info (sym ++ ".pro") = none →
       info (sym ++ ".m") = none → info (sym ++ ".x") = none →
       resolve_symbol info sym = none) ∧
    (∀ (w : World) (o : OrderRequest), ensure_mt5 w = true →
       resolve_symbol w.symbol_info o.symbol = none →
       build_order w o =
         Sum.inl (OrderResponse.fail
           ("Symbol " ++ o.symbol ++ " (or variants) not found in MT5")) ∧
       place_order w o =
         Except.ok (OrderResponse.fail
           ("Symbol " ++ o.symbol ++ " (or variants) not found in MT5"))) := by
  refine ⟨fun info sym si h0 => ?_,
          fun info sym si h0 h1 => ?_,
          fun info sym si h0 h1 h2 => ?_,
          fun info sym si h0 h1 h2 h3 => ?_,
          fun info sym si h0 h1 h2 h3 h4 => ?_,
          fun info sym h0 h1 h2 h3 h4 => ?_,
          fun w o hens hres => ?_⟩
  · simp [resolve_symbol, h0]
  · simp [resolve_symbol, try_suffixes, suffix_list, h0, h1]
  · simp [resolve_symbol, try_suffixes, suffix_list, h0, h1, h2]
  · simp [resolve_symbol, try_suffixes, suffix_list, h0, h1, h2, h3]
  · simp [resolve_symbol, try_suffixes, suffix_list, h0, h1, h2, h3, h4]
  · simp [resolve_symbol, try_suffixes, suffix_list, h0, h1, h2, h3, h4]
  · have hbo : build_order w o =
        Sum.inl (OrderResponse.fail
          ("Symbol " ++ o.symbol ++ " (or variants) not found in MT5")) := by
      simp [build_order, hens, hres]
    exact ⟨hbo, by simp [place_order, hbo]⟩

/-- Claim C2 witness: on a connected terminal whose metadata knows no
symbol, the order for "XYZ" fails naming "XYZ" and the path stops before
any submission (`build_order` stays in the failure summand). -/
theorem C2_symbol_resolution_witness :
    build_order wEmptyMeta
        { symbol := "XYZ", type := "BUY", volume := 1, sl := none, tp := none,
          comment := none } =
      Sum.inl (OrderResponse.fail ("Symbol " ++ "XYZ" ++ " (or variants) not found in MT5")) ∧
    place_order wEmptyMeta
        { symbol := "XYZ", type := "BUY", volume := 1, sl := none, tp := none,
          comment := none } =
      Except.ok (OrderResponse.fail ("Symbol " ++ "XYZ" ++ " (or variants) not found in MT5")) :=
  C2_symbol_resolution.2.2.2.2.2.2 wEmptyMeta
    { symbol := "XYZ", type := "BUY", volume := 1, sl := none, tp := none,
      comment := none } rfl rfl

/-- Claim C4: on the order-placement path the submission result is
classified into exactly three outcomes: a null result gives a failure
carrying the terminal's last diagnostic; a non-null result whose status
code is not the done code gives a failure whose message is
"Trade failed (Code <code>): <comment>" carrying the code; otherwise the
response is success with the assigned order identifier.  The handler
applies this classification to whatever `order_send` returns. -/
theorem C4_result_classification :
    (∀ (w : World) (o : OrderRequest) (req : TradeRequest),
       build_order w o = Sum.inr req →
       place_order w o =
         Except.ok (classify_order_result (w.order_send req) w.last_error)) ∧
    (∀ le : String,
       classify_order_result none le =
         OrderResponse.fail ("Internal MT5 Error: order_send returned None. Error: " ++ le)) ∧
    (∀ (r : OrderResult) (le c : String),
       r.retcode ≠ TRADE_RETCODE_DONE → r.comment = some c →
       classify_order_result (some r) le =
         OrderResponse.failRet
           ("Trade failed (Code " ++ toString r.retcode ++ "): " ++ c) r.retcode) ∧
    (∀ (r : OrderResult) (le : String),
       r.retcode = TRADE_RETCODE_DONE →
       classify_order_result (some r) le = OrderResponse.okTicket r.order) := by
  refine ⟨fun w o req h => ?_, fun le => rfl,
          fun r le c hne hc => ?_, fun r le heq => ?_⟩
  · simp [place_order, h]
  · simp [classify_order_result, hne, hc]
  · simp [classify_order_result, heq]

/-- Claim C4 witness: a requote result (code 10004, comment "Requote") is
classified as the failure dict with message
"Trade failed (Code 10004): Requote" and retcode 10004. -/
theorem C4_result_classification_witness :
    classify_order_result
        (some { retcode := 10004, comment := some "Requote", order := 0 }) "" =
      OrderResponse.failRet
        ("Trade failed (Code " ++
          toString (OrderResult.retcode { retcode := 10004, comment := some "Requote", order := 0 }) ++
          "): " ++ "Requote") 10004 :=
  C4_result_classification.2.2.1
    { retcode := 10004, comment := some "Requote", order := 0 } "" "Requote"
    (by decide) rfl

/-- Claim C5 is contradicted by the code: evaluating the close handler at
a terminal that knows position 7 but returns a null quote, the handler
raises (AttributeError on `tick.bid`) instead of returning a structured
failure response. -/
theorem C5_close_raises_on_null_quote :
    close_position wNullTick 7 =
      Except.error "AttributeError: NoneType object has no attribute bid" := by
  rfl

/-- Claim C6: a close request whose ticket matches no open position — the
terminal answering either null or an empty tuple — yields exactly the
response with error "Position not found", and the path stops before any
submission (the request summand is never reached). -/
theorem C6_position_not_found :
    ∀ (w : World) (tk : Nat), ensure_mt5 w = true →
      (w.positions_get_ticket tk = none ∨ w.positions_get_ticket tk = some []) →
      close_position w tk = Except.ok (CloseResponse.fail "Position not found") ∧
      close_position_request w tk =
        Except.ok (Sum.inl (CloseResponse.fail "Position not found")) := by
  intro w tk hens hcase
  have hreq : close_position_request w tk =
      Except.ok (Sum.inl (CloseResponse.fail "Position not found")) := by
    cases hcase with
    | inl h => simp [close_position_request, hens, h]
    | inr h => simp [close_position_request, hens, h]
  exact ⟨by simp [close_position, hreq], hreq⟩

/-- Claim C6 witness: on `wDemo`, ticket 8 matches no open position and
the close handler answers exactly "Position not found" without reaching
submission. -/
theorem C6_position_not_found_witness :
    close_position wDemo 8 = Except.ok (CloseResponse.fail "Position not found") ∧
    close_position_request wDemo 8 =
      Except.ok (Sum.inl (CloseResponse.fail "Position not found")) :=
  C6_position_not_found wDemo 8 rfl (Or.inl rfl)

/-- Claim C10: any order whose type field is not exactly "BUY" — lowercase
"buy", "Sell", or an arbitrary string — is submitted as a SELL at the bid
price; no validation rejects type values outside BUY/SELL. -/
theorem C10_non_buy_is_sell :
    ∀ (w : World) (o : OrderRequest) (req : TradeRequest),
      o.type ≠ "BUY" → build_order w o = Sum.inr req →
      req.type = ORDER_TYPE_SELL ∧
      ∃ t : Tick, w.symbol_info_tick req.symbol = some t ∧ req.price = t.bid := by
  intro w o req hnb h
  cases hens : ensure_mt5 w
  · simp [build_order, hens] at h
  · cases hres : resolve_symbol w.symbol_info o.symbol with
    | none => simp [build_order, hens, hres] at h
    | some pair =>
      obtain ⟨a, si⟩ := pair
      by_cases hvis : (!si.visible && !w.symbol_select a) = true
      · simp [build_order, hens, hres, hvis] at h
      · cases htick : w.symbol_info_tick a with
        | none => simp [build_order, hens, hres, hvis, htick] at h
        | some t =>
          simp only [build_order, hens, hres, hvis, htick, Bool.not_true,
            Bool.false_eq_true, if_false, if_true] at h
          injection h with h
          subst h
          refine ⟨by simp [hnb], t, htick, by simp [hnb]⟩

/-- Claim C10 witness: on `wDemo`, an order with type "buy" (lowercase) is
assembled as a SELL (type 1) at the bid price 100. -/
theorem C10_non_buy_is_sell_witness :
    TradeRequest.type
        { action := 1, symbol := "EURUSD", volume := 1, type := 1, price := 100
          sl := some 0, tp := some 0, magic := 123456, comment := "GainZAlgo Signal"
          type_time := 0, type_filling := 0, position := none } = ORDER_TYPE_SELL ∧
    ∃ t : Tick,
      wDemo.symbol_info_tick
          (TradeRequest.symbol
            { action := 1, symbol := "EURUSD", volume := 1, type := 1, price := 100
              sl := some 0, tp := some 0, magic := 123456, comment := "GainZAlgo Signal"
              type_time := 0, type_filling := 0, position := none }) = some t ∧
      TradeRequest.price
          { action := 1, symbol := "EURUSD", volume := 1, type := 1, price := 100
            sl := some 0, tp := some 0, magic := 123456, comment := "GainZAlgo Signal"
            type_time := 0, type_filling := 0, position := none } = t.bid :=
  C10_non_buy_is_sell wDemo
    { symbol := "EURUSD", type := "buy", volume := 1, sl := none, tp := none,
      comment := none }
    { action := 1, symbol := "EURUSD", volume := 1, type := 1, price := 100
      sl := some 0, tp := some 0, magic := 123456, comment := "GainZAlgo Signal"
      type_time := 0, type_filling := 0, position := none }
    (by decide) (by rfl)
